import Mathlib

/-!
Verification of the error/diagnostic core of the `kdl-rs` KDL parser
(`src/error.rs`), embedded shallowly in Lean 4.

The embedding translates:
  * Rust's `std::num::ParseIntError` / `ParseFloatError` (opaque structs
    over a private error-kind discriminant),
  * nom's `ErrorKind` classification enum (a representative inductive:
    the code under verification never inspects it),
  * the public diagnostic `KdlError` with its cause classification
    `KdlErrorKind`,
  * the post-parse conversion error `TryFromKdlNodeValueError`, and
  * the transient accumulator `KdlParseError<I>` together with its four
    trait methods `from_error_kind`, `append`, `add_context`, and the two
    `from_external_error` lifts.
-/

namespace Kdl

/-- Discriminant of Rust's `std::num::ParseIntError` (`IntErrorKind`). -/
inductive IntErrorKind where
  | empty
  | invalidDigit
  | posOverflow
  | negOverflow
  | zero
  deriving DecidableEq, Repr

/-- Rust's `std::num::ParseIntError`: an opaque wrapper around its kind. -/
structure ParseIntError where
  intKind : IntErrorKind
  deriving DecidableEq, Repr

/-- Discriminant of Rust's `std::num::ParseFloatError` (private `FloatErrorKind`). -/
inductive FloatErrorKind where
  | empty
  | invalid
  deriving DecidableEq, Repr

/-- Rust's `std::num::ParseFloatError`: an opaque wrapper around its kind. -/
structure ParseFloatError where
  floatKind : FloatErrorKind
  deriving DecidableEq, Repr

/-- nom's `error::ErrorKind` classification enum (representative variants;
the accumulator under verification ignores this argument everywhere). -/
inductive ErrorKind where
  | tag
  | alpha
  | digit
  | alphaNumeric
  | mapRes
  | many0
  | many1
  | eof
  | char
  | verify
  deriving DecidableEq, Repr

/-- `KdlErrorKind` from `src/error.rs`: the classified cause of a parse
failure. `Context` carries the static label (`&'static str`, modelled as
`String`); `Other` is the unspecified cause. -/
inductive KdlErrorKind where
  | ParseIntError (e : ParseIntError)
  | ParseFloatError (e : ParseFloatError)
  | Context (s : String)
  | Other
  deriving DecidableEq, Repr

/-- `KdlError` from `src/error.rs`: the public diagnostic, holding the
original source string, the char offset of the failure, and the cause. -/
structure KdlError where
  input : String
  offset : Nat
  kind : KdlErrorKind
  deriving DecidableEq, Repr

/-- The traits named in the `derive` attribute on `KdlError` in
`src/error.rs` (`Debug, Diagnostic, Clone, Eq, PartialEq, Error`). -/
def KdlError.derives : List String :=
  ["Debug", "Diagnostic", "Clone", "Eq", "PartialEq", "Error"]

/-- `TryFromKdlNodeValueError` from `src/error.rs`: the post-parse
conversion error, holding only the expected type name and the actual
variant name (both `&'static str`). -/
structure TryFromKdlNodeValueError where
  expected : String
  variant : String
  deriving DecidableEq, Repr

/-- `KdlParseError<I>` from `src/error.rs`: the transient internal
parse-error accumulator, generic over the input slice type `I`. -/
structure KdlParseError (I : Type) where
  input : I
  context : Option String
  kind : Option KdlErrorKind
  deriving DecidableEq, Repr

namespace KdlParseError

/-- `ParseError::from_error_kind` for `KdlParseError<I>`: builds the
accumulator for a pure grammar mismatch, ignoring the nom kind. -/
def from_error_kind {I : Type} (input : I) (_kind : ErrorKind) :
    KdlParseError I :=
  { input := input, context := none, kind := none }

/-- `ParseError::append` for `KdlParseError<I>`: keeps the earlier
accumulator, discarding the new input and kind. -/
def append {I : Type} (_input : I) (_kind : ErrorKind)
    (other : KdlParseError I) : KdlParseError I :=
  other

/-- `ContextError::add_context` for `KdlParseError<I>`:
`other.context = other.context.or(Some(ctx))`. -/
def add_context {I : Type} (_input : I) (ctx : String)
    (other : KdlParseError I) : KdlParseError I :=
  { other with context := other.context.or (some ctx) }

/-- `FromExternalError<&str, ParseIntError>::from_external_error` for
`KdlParseError<&str>`. -/
def from_external_error_int (input : String) (_kind : ErrorKind)
    (e : ParseIntError) : KdlParseError String :=
  { input := input, context := none,
    kind := some (KdlErrorKind.ParseIntError e) }

/-- `FromExternalError<&str, ParseFloatError>::from_external_error` for
`KdlParseError<&str>`. -/
def from_external_error_float (input : String) (_kind : ErrorKind)
    (e : ParseFloatError) : KdlParseError String :=
  { input := input, context := none,
    kind := some (KdlErrorKind.ParseFloatError e) }

end KdlParseError

/-- Modelled from the spec: the Error Aggregator's finalization of the
accumulator's cause is not under `src/` (only `src/error.rs` is). Per
§4.5/§7 of the spec, the final `Cause` is the recorded cause when one is
present, otherwise the innermost context label, otherwise `Unspecified`
(`Other`). -/
def finalize_kind {I : Type} (e : KdlParseError I) : KdlErrorKind :=
  match e.kind with
  | some k => k
  | none =>
    match e.context with
    | some c => KdlErrorKind.Context c
    | none => KdlErrorKind.Other

/-- Modelled from the spec: the Error Aggregator's construction of the
public diagnostic is not under `src/`. Per §4.5 of the spec, the final
offset is the original input length minus the remaining slice length,
and the cause is finalized as in `finalize_kind`. -/
def finalize_error (input : String) (e : KdlParseError String) : KdlError :=
  { input := input,
    offset := input.length - e.input.length,
    kind := finalize_kind e }

end Kdl

namespace Kdl

/-- Claim C1: `add_context` sets the accumulator's context to the new
label exactly when no context was present; an already-present label is
kept (first label wins), and the `kind` field is never touched by
context annotation. -/
theorem add_context_fills_absent_only {I : Type} (i : I) (c : String)
    (e : KdlParseError I) :
    ((KdlParseError.add_context i c e).context =
      if e.context.isSome then e.context else some c) ∧
    (KdlParseError.add_context i c e).kind = e.kind := by
  cases h : e.context <;>
    simp [KdlParseError.add_context, h]

/-- Claim C2: lifting a native `ParseIntError` via `from_external_error`
yields an accumulator with kind `ParseIntError e`, no context, and the
given input slice; likewise for `ParseFloatError`. -/
theorem from_external_error_wraps_native (i : String) (k : ErrorKind)
    (ei : ParseIntError) (ef : ParseFloatError) :
    (KdlParseError.from_external_error_int i k ei).kind
        = some (KdlErrorKind.ParseIntError ei) ∧
    (KdlParseError.from_external_error_int i k ei).context = none ∧
    (KdlParseError.from_external_error_int i k ei).input = i ∧
    (KdlParseError.from_external_error_float i k ef).kind
        = some (KdlErrorKind.ParseFloatError ef) ∧
    (KdlParseError.from_external_error_float i k ef).context = none ∧
    (KdlParseError.from_external_error_float i k ef).input = i :=
  ⟨rfl, rfl, rfl, rfl, rfl, rfl⟩

/-- Claim C3: `append` returns the earlier accumulator unchanged; the
new input and nom kind are discarded, so exactly one cause survives per
failure path. -/
theorem append_keeps_innermost {I : Type} (i : I) (k : ErrorKind)
    (other : KdlParseError I) :
    KdlParseError.append i k other = other :=
  rfl

/-- Claim C4: `from_error_kind` records neither a context label nor a
cause, and such an accumulator finalizes to the `Other` (Unspecified)
cause when no label is applied during unwind. -/
theorem from_error_kind_unspecified {I : Type} (i : I) (k : ErrorKind) :
    (KdlParseError.from_error_kind i k).context = none ∧
    (KdlParseError.from_error_kind i k).kind = none ∧
    finalize_kind (KdlParseError.from_error_kind i k) = KdlErrorKind.Other :=
  ⟨rfl, rfl, rfl⟩

/-- Claim C5: once a context label is set, `add_context` is the
identity on the accumulator, and applying `add_context` twice (with any
labels and inputs) equals applying it once with the first label. -/
theorem add_context_idempotent {I : Type} (i i' : I) (c c' : String)
    (e : KdlParseError I) :
    (e.context.isSome = true → KdlParseError.add_context i c e = e) ∧
    KdlParseError.add_context i' c' (KdlParseError.add_context i c e) =
      KdlParseError.add_context i c e := by
  obtain ⟨inp, ctx, kd⟩ := e
  cases ctx <;> simp [KdlParseError.add_context]

/-- Witness for C5 at a concrete accumulator whose context is present. -/
theorem add_context_idempotent_witness :
    KdlParseError.add_context "in" "lbl2"
        (⟨"rest", some "lbl1", none⟩ : KdlParseError String)
      = (⟨"rest", some "lbl1", none⟩ : KdlParseError String) :=
  (add_context_idempotent "in" "in2" "lbl2" "lbl3"
    (⟨"rest", some "lbl1", none⟩ : KdlParseError String)).1 rfl

/-- Claim C9: neither `add_context` nor `append` changes the input slice
stored in the propagated accumulator, so the position recorded at the
first failure point survives the unwind unchanged. -/
theorem unwind_preserves_input {I : Type} (i : I) (c : String)
    (k : ErrorKind) (e : KdlParseError I) :
    (KdlParseError.add_context i c e).input = e.input ∧
    (KdlParseError.append i k e).input = e.input :=
  ⟨rfl, rfl⟩

/-- Claim C10: the accumulator constructors are independent of the nom
`ErrorKind` argument: any two kinds give equal results for
`from_error_kind` and for both `from_external_error` lifts. -/
theorem constructors_ignore_nom_kind {I : Type} (i : I) (s : String)
    (k1 k2 : ErrorKind) (ei : ParseIntError) (ef : ParseFloatError) :
    KdlParseError.from_error_kind i k1 = KdlParseError.from_error_kind i k2 ∧
    KdlParseError.from_external_error_int s k1 ei
        = KdlParseError.from_external_error_int s k2 ei ∧
    KdlParseError.from_external_error_float s k1 ef
        = KdlParseError.from_external_error_float s k2 ef :=
  ⟨rfl, rfl, rfl⟩

end Kdl

namespace Kdl

/-- Counterexample to Claim C6 as stated: the `derive` attribute on
`KdlError` contains neither `Ord` nor `PartialOrd`, so no structural
ordering comparison over diagnostics is defined by the code. -/
theorem kdl_error_no_derived_ordering :
    ¬ ("Ord" ∈ KdlError.derives ∨ "PartialOrd" ∈ KdlError.derives) := by
  decide

/-- Claim C6 (amended): `KdlError` supports structural equality — two
diagnostics are equal exactly when their input strings, offsets, and
causes are componentwise equal — and the code derives `Eq`/`PartialEq`
for it, but no ordering trait. -/
theorem kdl_error_structural_equality :
    (∀ a b : KdlError,
        a = b ↔ (a.input = b.input ∧ a.offset = b.offset ∧ a.kind = b.kind)) ∧
    "Eq" ∈ KdlError.derives ∧ "PartialEq" ∈ KdlError.derives ∧
    "Ord" ∉ KdlError.derives := by
  refine ⟨?_, by decide, by decide, by decide⟩
  intro a b
  cases a
  cases b
  simp

/-- Claim C7: the finalized diagnostic's offset is a valid single-point
index into its stored input: `0 ≤ offset ≤ input.length`, whenever the
accumulator's remaining slice is no longer than the original input (it
is always a suffix of it during parsing). -/
theorem finalize_offset_valid (input : String) (e : KdlParseError String)
    (h : e.input.length ≤ input.length) :
    (finalize_error input e).offset ≤ (finalize_error input e).input.length ∧
    (finalize_error input e).offset + e.input.length = input.length := by
  constructor
  · exact Nat.sub_le input.length e.input.length
  · simp only [finalize_error]
    omega

/-- Witness for C7 at a concrete input and accumulator. -/
theorem finalize_offset_valid_witness :
    (finalize_error "abc" (⟨"c", none, none⟩ : KdlParseError String)).offset ≤
        (finalize_error "abc" (⟨"c", none, none⟩ : KdlParseError String)).input.length ∧
    (finalize_error "abc" (⟨"c", none, none⟩ : KdlParseError String)).offset +
        (⟨"c", none, none⟩ : KdlParseError String).input.length = "abc".length :=
  finalize_offset_valid "abc" (⟨"c", none, none⟩ : KdlParseError String) (by decide)

/-- Claim C8: the value-conversion error `TryFromKdlNodeValueError`
carries exactly an expected type name and an actual variant name and
nothing else (in particular no source offset): two such errors are
equal exactly when those two components are equal. -/
theorem try_from_error_exactly_two_components
    (e1 e2 : TryFromKdlNodeValueError) :
    e1 = e2 ↔ (e1.expected = e2.expected ∧ e1.variant = e2.variant) := by
  cases e1
  cases e2
  simp

end Kdl
